import Mathlib

/-!
Shallow embedding of `src/server.ts` of dispatched-dev/dispatchedjs-cli.

Timestamps are modelled as `Int` milliseconds since the epoch; the source
stores `scheduledFor`/`createdAt` as ISO strings and compares them after
re-parsing through `Date`, which is order-isomorphic to the numeric value.
A possibly-invalid JavaScript `Date` (the result of `new Date(x)` on an
unparseable input) is `Option Int`, with `none` standing for `Invalid Date`
(whose comparisons are all false and whose `toISOString()` throws).
-/

/-- Job status strings used by `server.ts`. -/
inductive Status where
  | QUEUED
  | DISPATCHED
  | COMPLETED
  | FAILED
  | CANCELLED
deriving DecidableEq, Repr

/-- The caller-supplied opaque payload; `Payload.empty` is the `{}` default
used by the create handler (`req.body?.payload ?? {}`). -/
inductive Payload where
  | empty
  | raw (s : String)
deriving DecidableEq, Repr

/-- A job record as built at `server.ts:37-43`. -/
structure Job where
  id : String
  status : Status
  scheduledFor : Int
  payload : Payload
  createdAt : Int
deriving DecidableEq, Repr

/-- A possibly-invalid JavaScript `Date` value. -/
abbrev JsDate := Option Int

/-- The `jobCache : Map<string, any>`: a JavaScript `Map` preserves insertion
order, and `set` on an existing key keeps the original position. -/
abbrev JobStore := List (String × Job)

/-- `Map.get` on the job cache. -/
def storeGet : JobStore → String → Option Job
  | [], _ => none
  | (k, v) :: rest, id => if k = id then some v else storeGet rest id

/-- `Map.set` on the job cache: replace in place when the key exists
(keeping its insertion position, as a JavaScript `Map` does), append
otherwise. -/
def storeSet : JobStore → String → Job → JobStore
  | [], id, j => [(id, j)]
  | (k, v) :: rest, id, j =>
      if k = id then (k, j) :: rest else (k, v) :: storeSet rest id j

/-- `Array.from(this.jobCache.values())`: the records in insertion order. -/
def storeValues (s : JobStore) : List Job := s.map (fun e => e.2)

/-- The raw `ServerConfig` interface: `scheduledDelay?` is optional. -/
structure ServerConfig where
  webhookSecret : String
  forwardUrl : String
  port : Int
  scheduledDelay : Option Int
deriving DecidableEq, Repr

/-- The configuration as stored on the `Server` after the constructor spread
`\x7b scheduledDelay: 30, ...config \x7d` resolved the default. -/
structure Config where
  webhookSecret : String
  forwardUrl : String
  port : Int
  scheduledDelay : Int
deriving DecidableEq, Repr

/-- The constructor at `server.ts:16-22`: `scheduledDelay` defaults to 30
seconds when unspecified. -/
def resolveConfig (c : ServerConfig) : Config :=
  { webhookSecret := c.webhookSecret
    forwardUrl := c.forwardUrl
    port := c.port
    scheduledDelay := c.scheduledDelay.getD 30 }

/-- Outcome of the single `fetch` call of `dispatchJob`: either a response
object (of which the code reads only `.ok`) or a thrown transport error. -/
inductive FetchOutcome where
  | response (ok : Bool)
  | thrown
deriving DecidableEq, Repr

/-- The outbound POST built by `dispatchJob` (`server.ts:150-174`): URL,
headers, and the envelope body. -/
structure WebhookRequest where
  url : String
  contentType : String
  authorization : String
  jobId : String
  attemptId : String
  attemptNumber : Nat
  status : String
  payload : Payload
deriving DecidableEq, Repr

/-- Response bodies serialized by the handlers. -/
inductive ResponseBody where
  | jobBody (j : Job)
  | err (error : String)
  | errDetailed (error message code : String)
deriving DecidableEq, Repr

/-- An HTTP response: status code and JSON body. -/
structure HttpResponse where
  status : Nat
  body : ResponseBody
deriving DecidableEq, Repr

/-- Result of running a handler: the job cache afterwards, the HTTP
response produced, and the outbound POSTs performed along the way. -/
structure HandlerResult where
  store : JobStore
  response : HttpResponse
  requests : List WebhookRequest
deriving DecidableEq, Repr

/-- The final status written by `dispatchJob` for a given fetch outcome:
`response.ok` gives `COMPLETED`, a non-ok response or a thrown error gives
`FAILED` (`server.ts:176-196`). -/
def dispatchOutcomeStatus : FetchOutcome → Status
  | .response true => .COMPLETED
  | .response false => .FAILED
  | .thrown => .FAILED

/-- The sequence of records `dispatchJob` writes to the cache for `job.id`:
first `\x7b ...job, status: "DISPATCHED" \x7d` (`server.ts:147-148`), then the
outcome record (`server.ts:177-194`). -/
def dispatchWrites (job : Job) (oc : FetchOutcome) : List Job :=
  [{ job with status := .DISPATCHED }, { job with status := dispatchOutcomeStatus oc }]

/-- The envelope POSTed by `dispatchJob` (`server.ts:150-174`):
`attemptId` is a fresh random id, passed here as a parameter. -/
def mkWebhookRequest (cfg : Config) (job : Job) (attemptId : String) : WebhookRequest :=
  { url := cfg.forwardUrl
    contentType := "application/json"
    authorization := "Bearer " ++ cfg.webhookSecret
    jobId := job.id
    attemptId := attemptId
    attemptNumber := 1
    status := "DISPATCHED"
    payload := job.payload }

/-- `Server.dispatchJob` (`server.ts:143-197`). It takes the job snapshot it
was handed, unconditionally writes the `DISPATCHED` record, performs exactly
one POST, and writes the outcome record; the fetch outcome and the fresh
attempt id are parameters. It never consults the current cache entry and
never throws (the fetch is inside try/catch). -/
def dispatchJob (cfg : Config) (store : JobStore) (job : Job) (oc : FetchOutcome)
    (attemptId : String) : JobStore × List WebhookRequest :=
  ((dispatchWrites job oc).foldl (fun s w => storeSet s job.id w) store,
   [mkWebhookRequest cfg job attemptId])

/-- `new Date(req.body.scheduledFor)` when the field is present, `new Date()`
(the current time) when omitted (`server.ts:33`). -/
def effScheduledFor (reqSf : Option JsDate) (now : Int) : JsDate :=
  match reqSf with
  | some d => d
  | none => some now

/-- JavaScript `date <= now` on a possibly-invalid `Date`: comparisons with
`Invalid Date` (NaN) are false. -/
def jsDateLe (d : JsDate) (now : Int) : Bool :=
  match d with
  | none => false
  | some t => decide (t ≤ now)

/-- Body of a create request: optional `scheduledFor` (which, when present,
parses to a valid or invalid `Date`) and optional `payload`. -/
structure CreateRequest where
  scheduledFor : Option JsDate
  payload : Option Payload
deriving DecidableEq, Repr

/-- The job literal built at `server.ts:37-43`. -/
def createdJob (newId : String) (sf : Int) (req : CreateRequest) (now : Int) : Job :=
  { id := newId, status := .QUEUED, scheduledFor := sf,
    payload := req.payload.getD .empty, createdAt := now }

/-- The `POST /api/jobs/dispatch` handler (`server.ts:29-62`). A fresh job id
and the dispatch parameters are passed in. When `scheduledFor` parses to
`Invalid Date`, `toISOString()` at `server.ts:40` throws before the cache
write, and the catch block answers 500 with the store untouched. -/
def createHandler (cfg : Config) (store : JobStore) (req : CreateRequest) (now : Int)
    (newId : String) (oc : FetchOutcome) (attemptId : String) : HandlerResult :=
  let sfDate := effScheduledFor req.scheduledFor now
  let isImmediate := jsDateLe sfDate now
  match sfDate with
  | none => { store := store, response := ⟨500, .err "Internal server error"⟩, requests := [] }
  | some sf =>
    let job := createdJob newId sf req now
    let store1 := storeSet store job.id job
    if isImmediate then
      let r := dispatchJob cfg store1 job oc attemptId
      { store := r.1, response := ⟨201, .jobBody job⟩, requests := r.2 }
    else
      { store := store1, response := ⟨201, .jobBody job⟩, requests := [] }

/-- The `GET /api/jobs/:id` handler (`server.ts:64-72`). -/
def getHandler (store : JobStore) (id : String) : HttpResponse :=
  match storeGet store id with
  | none => ⟨404, .err "Job not found"⟩
  | some job => ⟨200, .jobBody job⟩

/-- The `DELETE /api/jobs/:id` handler (`server.ts:119-140`). Note that the
200 response serializes the `job` object read before the cache write, not
the cancelled record written to the cache. -/
def cancelHandler (store : JobStore) (id : String) : JobStore × HttpResponse :=
  match storeGet store id with
  | none => (store, ⟨404, .err "Job not found"⟩)
  | some job =>
    if job.status ≠ .QUEUED then
      (store, ⟨400, .err "Job can only be cancelled when status is QUEUED"⟩)
    else
      (storeSet store id { job with status := .CANCELLED }, ⟨200, .jobBody job⟩)

/-- The `PATCH /api/jobs/:id` handler (`server.ts:74-117`). The dispatch on
an immediate new time is fire-and-forget (`.catch` only); the model returns
the cache after the dispatch effects land, while the 200 response holds the
`updatedJob` record built before the dispatch. An `Invalid Date` makes
`toISOString()` at `server.ts:102` throw synchronously, which Express turns
into a default 500. -/
def updateHandler (cfg : Config) (store : JobStore) (id : String) (reqSf : Option JsDate)
    (now : Int) (oc : FetchOutcome) (attemptId : String) : HandlerResult :=
  match storeGet store id with
  | none =>
      ⟨store,
       ⟨404, .errDetailed "Job not found"
          ("Job with id \x27" ++ id ++ "\x27 does not exist") "JOB_NOT_FOUND"⟩,
       []⟩
  | some job =>
    if job.status ≠ .QUEUED then
      ⟨store, ⟨400, .err "Job can only be updated when status is QUEUED"⟩, []⟩
    else
      match reqSf with
      | none => ⟨store, ⟨400, .err "scheduledFor is required"⟩, []⟩
      | some none => ⟨store, ⟨500, .err "Internal Server Error"⟩, []⟩
      | some (some t) =>
        let updatedJob := { job with scheduledFor := t }
        let store1 := storeSet store id updatedJob
        if t ≤ now then
          let r := dispatchJob cfg store1 updatedJob oc attemptId
          ⟨r.1, ⟨200, .jobBody updatedJob⟩, r.2⟩
        else
          ⟨store1, ⟨200, .jobBody updatedJob⟩, []⟩

/-- The readiness filter of `processScheduledJobs` (`server.ts:221-230`):
status `QUEUED` and `scheduledFor + scheduledDelay * 1000 <= now`
(the delay is configured in seconds, times are milliseconds). -/
def readyPred (delay now : Int) (j : Job) : Bool :=
  j.status == .QUEUED && decide (j.scheduledFor + delay * 1000 ≤ now)

/-- The `readyJobs` selection: cache values in insertion order, filtered by
`readyPred`. -/
def listReady (store : JobStore) (now delay : Int) : List Job :=
  (storeValues store).filter (readyPred delay now)

/-- The sequential loop of `processScheduledJobs` (`server.ts:235-240`): each
ready job is re-checked against its own snapshot (`job.status === "QUEUED"`)
and dispatched; the `k`-th dispatch uses the `k`-th fetch outcome and
attempt id. -/
def processGo (cfg : Config) (ocs : Nat → FetchOutcome) (aids : Nat → String) :
    List Job → Nat → JobStore → JobStore × List WebhookRequest
  | [], _, s => (s, [])
  | j :: rest, k, s =>
    if j.status == .QUEUED then
      let r1 := dispatchJob cfg s j (ocs k) (aids k)
      let r2 := processGo cfg ocs aids rest (k + 1) r1.1
      (r2.1, r1.2 ++ r2.2)
    else processGo cfg ocs aids rest (k + 1) s

/-- `Server.processScheduledJobs` (`server.ts:219-242`): one scanner tick. -/
def processScheduledJobs (cfg : Config) (store : JobStore) (now : Int)
    (ocs : Nat → FetchOutcome) (aids : Nat → String) : JobStore × List WebhookRequest :=
  processGo cfg ocs aids (listReady store now cfg.scheduledDelay) 0 store

/-- JavaScript `s.substring(a, b)` for `a <= b`: the characters from index
`a` (inclusive) to `b` (exclusive), clamped to the string length. -/
def jsSubstring (s : String) (a b : Nat) : String :=
  String.mk ((s.data.drop a).take (b - a))

/-- `randomId` (`server.ts:266-271`): the concatenation of
`Math.random().toString(36).substring(2, 15)` for two draws. The arguments
stand for the full base-36 renderings (such as "0.abc...") of the two
`Math.random()` results; the id is a pure function of them. -/
def randomId (draw1 draw2 : String) : String :=
  jsSubstring draw1 2 15 ++ jsSubstring draw2 2 15

/-- Whether `needle` occurs as a contiguous run inside `haystack`. -/
def charsContain (haystack needle : List Char) : Bool :=
  match haystack with
  | [] => needle.isEmpty
  | _ :: t => needle.isPrefixOf haystack || charsContain t needle

/-- Whether a response body textually contains the string `s` (used to ask
whether an error detail echoes a job id). -/
def bodyMentions (b : ResponseBody) (s : String) : Bool :=
  match b with
  | .jobBody j => charsContain j.id.data s.data
  | .err e => charsContain e.data s.data
  | .errDetailed e m c =>
      charsContain e.data s.data || charsContain m.data s.data || charsContain c.data s.data

/-- A sample resolved configuration for concrete instances. -/
def sampleCfg : Config :=
  { webhookSecret := "test-secret", forwardUrl := "http://forward.example",
    port := 3100, scheduledDelay := 30 }

/-- A sample queued job for concrete instances. -/
def sampleJob : Job :=
  { id := "job1", status := .QUEUED, scheduledFor := 1000,
    payload := .raw "data", createdAt := 500 }

/-- A store holding `sampleJob` under its id, still queued. -/
def queuedStore : JobStore := [("job1", sampleJob)]

/-- A store in which the record for `sampleJob.id` has been cancelled. -/
def cancelledStore : JobStore := [("job1", { sampleJob with status := .CANCELLED })]

/-- A concrete base-36 rendering that a `Math.random()` draw can repeat. -/
def drawRepeat : String := "0.7h2awz8qk3vx9"

/-- A `Math.random()` stream that keeps producing the same rendering; no
property of the generator rules this out. -/
def repeatStream : Nat → String := fun _ => drawRepeat

example : storeGet [("job1", sampleJob)] "job1" = some sampleJob := by decide

example :
    (dispatchJob sampleCfg [("job1", sampleJob)] sampleJob (.response true) "a1").1
      = [("job1", { sampleJob with status := .COMPLETED })] := by decide

example : bodyMentions (.err "Job not found") "job1" = false := by decide

/-! ## Helper lemmas -/

theorem storeGet_storeSet_self (s : JobStore) (id : String) (j : Job) :
    storeGet (storeSet s id j) id = some j := by
  induction s with
  | nil => simp [storeSet, storeGet]
  | cons e rest ih =>
    obtain ⟨k, v⟩ := e
    by_cases hk : k = id <;> simp [storeSet, storeGet, hk, ih]

theorem dispatchJob_requests (cfg : Config) (s : JobStore) (j : Job) (oc : FetchOutcome)
    (aid : String) : (dispatchJob cfg s j oc aid).2 = [mkWebhookRequest cfg j aid] := rfl

theorem dispatchJob_store (cfg : Config) (s : JobStore) (j : Job) (oc : FetchOutcome)
    (aid : String) :
    (dispatchJob cfg s j oc aid).1
      = storeSet (storeSet s j.id { j with status := .DISPATCHED }) j.id
          { j with status := dispatchOutcomeStatus oc } := rfl

theorem storeGet_dispatchJob (cfg : Config) (s : JobStore) (j : Job) (oc : FetchOutcome)
    (aid : String) :
    storeGet (dispatchJob cfg s j oc aid).1 j.id
      = some { j with status := dispatchOutcomeStatus oc } := by
  rw [dispatchJob_store]
  exact storeGet_storeSet_self ..

theorem createHandler_response (cfg : Config) (store : JobStore) (req : CreateRequest)
    (now : Int) (newId : String) (oc : FetchOutcome) (aid : String) :
    (createHandler cfg store req now newId oc aid).response
      = match effScheduledFor req.scheduledFor now with
        | none => ⟨500, .err "Internal server error"⟩
        | some sf => ⟨201, .jobBody (createdJob newId sf req now)⟩ := by
  cases h : effScheduledFor req.scheduledFor now with
  | none => simp [createHandler, h]
  | some sf =>
    simp only [createHandler, h]
    split <;> rfl

/-! ## Claims -/

/-- Claim C4 (confirmed): every dispatch attempt performs exactly one
outbound POST; a success response sets the job to `COMPLETED`, a non-success
response or a thrown fetch error sets it to `FAILED`; no retry happens (the
request list is a singleton), and the outcome never changes the response
handed to the submitter (the create response is independent of the fetch
outcome). -/
theorem dispatch_single_post_outcome (cfg : Config) (store : JobStore) (job : Job)
    (oc : FetchOutcome) (aid : String) :
    (dispatchJob cfg store job oc aid).2 = [mkWebhookRequest cfg job aid]
    ∧ storeGet (dispatchJob cfg store job oc aid).1 job.id
        = some { job with status := dispatchOutcomeStatus oc }
    ∧ dispatchOutcomeStatus (.response true) = .COMPLETED
    ∧ dispatchOutcomeStatus (.response false) = .FAILED
    ∧ dispatchOutcomeStatus .thrown = .FAILED
    ∧ ∀ (req : CreateRequest) (now : Int) (newId : String) (oc2 : FetchOutcome),
        (createHandler cfg store req now newId oc aid).response
          = (createHandler cfg store req now newId oc2 aid).response := by
  refine ⟨rfl, storeGet_dispatchJob .., rfl, rfl, rfl, ?_⟩
  intro req now newId oc2
  rw [createHandler_response, createHandler_response]

/-- Claim C1 counterexample: with the store currently holding the job as
`CANCELLED`, `dispatchJob` still performs the outbound POST and still writes
statuses to the store — there is no re-read/abort before sending. -/
theorem dispatch_no_abort_counterexample :
    storeGet cancelledStore "job1" = some { sampleJob with status := .CANCELLED }
    ∧ ({ sampleJob with status := .CANCELLED } : Job).status ≠ .QUEUED
    ∧ (dispatchJob sampleCfg cancelledStore sampleJob (.response true) "att1").2 ≠ []
    ∧ storeGet (dispatchJob sampleCfg cancelledStore sampleJob (.response true) "att1").1 "job1"
        = some { sampleJob with status := .COMPLETED } := by
  decide

/-- Claim C1 amended: `dispatchJob` never re-reads the job from the store
before sending. Whatever record the store currently holds for the job (any
status, e.g. already cancelled), it performs the one outbound POST and
writes `DISPATCHED` and then the outcome status over it. -/
theorem dispatch_no_double_check (cfg : Config) (store : JobStore) (job : Job)
    (oc : FetchOutcome) (aid : String) (cur : Job)
    (_h : storeGet store job.id = some cur) :
    (dispatchJob cfg store job oc aid).2 = [mkWebhookRequest cfg job aid]
    ∧ storeGet (dispatchJob cfg store job oc aid).1 job.id
        = some { job with status := dispatchOutcomeStatus oc } :=
  ⟨rfl, storeGet_dispatchJob ..⟩

/-- Witness for `dispatch_no_double_check` at a store whose current record
for the job is `CANCELLED`. -/
theorem dispatch_no_double_check_witness :
    storeGet cancelledStore sampleJob.id = some { sampleJob with status := .CANCELLED }
    ∧ ((dispatchJob sampleCfg cancelledStore sampleJob .thrown "att2").2
        = [mkWebhookRequest sampleCfg sampleJob "att2"]
      ∧ storeGet (dispatchJob sampleCfg cancelledStore sampleJob .thrown "att2").1 sampleJob.id
        = some { sampleJob with status := dispatchOutcomeStatus .thrown }) :=
  ⟨by decide,
   dispatch_no_double_check sampleCfg cancelledStore sampleJob .thrown "att2"
     { sampleJob with status := .CANCELLED } (by decide)⟩

/-- Claim C10 (confirmed): a create request whose `scheduledFor` is present
but unparseable (an `Invalid Date`) is answered with the generic 500
internal error; the store is unchanged and no POST is made, because
`toISOString()` throws before the cache write. -/
theorem create_invalid_date_internal_error (cfg : Config) (store : JobStore)
    (p : Option Payload) (now : Int) (newId : String) (oc : FetchOutcome) (aid : String) :
    createHandler cfg store ⟨some none, p⟩ now newId oc aid
      = ⟨store, ⟨500, .err "Internal server error"⟩, []⟩ := rfl

/-- Claim C2 (confirmed): a create request builds a record that starts
`QUEUED`, with `scheduledFor` defaulting to the current time when omitted;
when the (possibly defaulted) time is at or before now, `dispatchJob` runs
synchronously as part of the call, otherwise the job is merely stored,
still `QUEUED`, with no POST made. -/
theorem create_queued_and_immediate_dispatch (cfg : Config) (store : JobStore)
    (req : CreateRequest) (now : Int) (newId : String) (oc : FetchOutcome) (aid : String)
    (sf : Int) (h : effScheduledFor req.scheduledFor now = some sf) :
    effScheduledFor none now = some now
    ∧ (createdJob newId sf req now).status = .QUEUED
    ∧ (createHandler cfg store req now newId oc aid).response
        = ⟨201, .jobBody (createdJob newId sf req now)⟩
    ∧ (sf ≤ now →
        (createHandler cfg store req now newId oc aid).store
          = (dispatchJob cfg (storeSet store newId (createdJob newId sf req now))
              (createdJob newId sf req now) oc aid).1
        ∧ (createHandler cfg store req now newId oc aid).requests
          = (dispatchJob cfg (storeSet store newId (createdJob newId sf req now))
              (createdJob newId sf req now) oc aid).2)
    ∧ (now < sf →
        (createHandler cfg store req now newId oc aid).store
            = storeSet store newId (createdJob newId sf req now)
        ∧ (createHandler cfg store req now newId oc aid).requests = []) := by
  refine ⟨rfl, rfl, ?_, ?_, ?_⟩
  · rw [createHandler_response, h]
  · intro hle
    simp [createHandler, h, jsDateLe, hle, createdJob]
  · intro hlt
    have hle : ¬ sf ≤ now := not_le.mpr hlt
    simp [createHandler, h, jsDateLe, hle, createdJob]

/-- Witness for `create_queued_and_immediate_dispatch` at an immediate
creation (scheduled time 400 at current time 500). -/
theorem create_queued_witness :
    effScheduledFor (some (some 400)) 500 = some 400
    ∧ (effScheduledFor none 500 = some 500
      ∧ (createdJob "idA" 400 ⟨some (some 400), some (.raw "p")⟩ 500).status = .QUEUED
      ∧ (createHandler sampleCfg [] ⟨some (some 400), some (.raw "p")⟩ 500 "idA"
            (.response true) "aA").response
          = ⟨201, .jobBody (createdJob "idA" 400 ⟨some (some 400), some (.raw "p")⟩ 500)⟩
      ∧ ((createHandler sampleCfg [] ⟨some (some 400), some (.raw "p")⟩ 500 "idA"
            (.response true) "aA").store
          = (dispatchJob sampleCfg
              (storeSet [] "idA" (createdJob "idA" 400 ⟨some (some 400), some (.raw "p")⟩ 500))
              (createdJob "idA" 400 ⟨some (some 400), some (.raw "p")⟩ 500)
              (.response true) "aA").1
        ∧ (createHandler sampleCfg [] ⟨some (some 400), some (.raw "p")⟩ 500 "idA"
            (.response true) "aA").requests
          = (dispatchJob sampleCfg
              (storeSet [] "idA" (createdJob "idA" 400 ⟨some (some 400), some (.raw "p")⟩ 500))
              (createdJob "idA" 400 ⟨some (some 400), some (.raw "p")⟩ 500)
              (.response true) "aA").2)) := by
  have H := create_queued_and_immediate_dispatch sampleCfg []
    ⟨some (some 400), some (.raw "p")⟩ 500 "idA" (.response true) "aA" 400 rfl
  exact ⟨rfl, H.1, H.2.1, H.2.2.1, H.2.2.2.1 (by decide)⟩

/-- Every job selected by the readiness filter has status `QUEUED`. -/
theorem listReady_mem_queued (store : JobStore) (now d : Int) :
    ∀ j ∈ listReady store now d, j.status = .QUEUED := by
  intro j hj
  simp only [listReady, List.mem_filter, readyPred, Bool.and_eq_true, beq_iff_eq] at hj
  exact hj.2.1

/-- The scanner loop dispatches each handed-over queued job once, in list
order. -/
theorem processGo_jobIds (cfg : Config) (ocs : Nat → FetchOutcome) (aids : Nat → String) :
    ∀ (l : List Job) (k : Nat) (s : JobStore), (∀ j ∈ l, j.status = .QUEUED) →
      (processGo cfg ocs aids l k s).2.map (fun r => r.jobId) = l.map (fun j => j.id) := by
  intro l
  induction l with
  | nil => intro k s _; rfl
  | cons j rest ih =>
    intro k s h
    have hq : j.status = .QUEUED := h j (List.mem_cons_self ..)
    have hrest : ∀ x ∈ rest, x.status = .QUEUED := fun x hx => h x (List.mem_cons_of_mem _ hx)
    simp [processGo, hq, dispatchJob, mkWebhookRequest, ih _ _ hrest]

/-- Claim C3 (confirmed): a scanner tick dispatches exactly the jobs with
status `QUEUED` and `scheduledFor + delay <= now` (delay in seconds, times
in milliseconds), in store-insertion (FIFO) order, and the configured delay
defaults to 30 seconds when unspecified. -/
theorem scanner_selects_ready_fifo (cfg : Config) (store : JobStore) (now : Int)
    (ocs : Nat → FetchOutcome) (aids : Nat → String) :
    (processScheduledJobs cfg store now ocs aids).2.map (fun r => r.jobId)
      = (listReady store now cfg.scheduledDelay).map (fun j => j.id)
    ∧ listReady store now cfg.scheduledDelay
        = (storeValues store).filter
            (fun j => j.status == .QUEUED
              && decide (j.scheduledFor + cfg.scheduledDelay * 1000 ≤ now))
    ∧ (∀ s u p, (resolveConfig ⟨s, u, p, none⟩).scheduledDelay = 30)
    ∧ (∀ s u p d, (resolveConfig ⟨s, u, p, some d⟩).scheduledDelay = d) := by
  refine ⟨?_, rfl, fun s u p => rfl, fun s u p d => rfl⟩
  exact processGo_jobIds cfg ocs aids _ 0 store (listReady_mem_queued store now _)

/-- Claim C5 counterexample: cancelling a queued job writes the `CANCELLED`
record to the store, but the 200 response serializes the record read before
the write, whose status is still `QUEUED`, not `CANCELLED`. -/
theorem cancel_returns_stale_record_counterexample :
    storeGet queuedStore "job1" = some sampleJob
    ∧ sampleJob.status = .QUEUED
    ∧ (cancelHandler queuedStore "job1").2 = ⟨200, .jobBody sampleJob⟩
    ∧ (⟨200, .jobBody sampleJob⟩ : HttpResponse)
        ≠ ⟨200, .jobBody { sampleJob with status := .CANCELLED }⟩
    ∧ storeGet (cancelHandler queuedStore "job1").1 "job1"
        = some { sampleJob with status := .CANCELLED } := by
  decide

/-- Claim C5 amended: cancelling an existing `QUEUED` job sets the stored
record to `CANCELLED`, but the response body returned to the caller is the
pre-update record, whose status field still reads `QUEUED`. -/
theorem cancel_sets_store_returns_old (store : JobStore) (id : String) (job : Job)
    (h : storeGet store id = some job) (hq : job.status = .QUEUED) :
    cancelHandler store id
      = (storeSet store id { job with status := .CANCELLED }, ⟨200, .jobBody job⟩)
    ∧ storeGet (cancelHandler store id).1 id = some { job with status := .CANCELLED } := by
  have hc : cancelHandler store id
      = (storeSet store id { job with status := .CANCELLED }, ⟨200, .jobBody job⟩) := by
    simp [cancelHandler, h, hq]
  exact ⟨hc, by rw [hc]; exact storeGet_storeSet_self ..⟩

/-- Witness for `cancel_sets_store_returns_old` on a concrete queued job. -/
theorem cancel_sets_store_returns_old_witness :
    storeGet queuedStore "job1" = some sampleJob
    ∧ sampleJob.status = .QUEUED
    ∧ (cancelHandler queuedStore "job1"
        = (storeSet queuedStore "job1" { sampleJob with status := .CANCELLED },
           ⟨200, .jobBody sampleJob⟩)
      ∧ storeGet (cancelHandler queuedStore "job1").1 "job1"
        = some { sampleJob with status := .CANCELLED }) :=
  ⟨by decide, by decide,
   cancel_sets_store_returns_old queuedStore "job1" sampleJob (by decide) (by decide)⟩

/-- Claim C6 (confirmed): update fails with the invalid-state 400 when the
job is not `QUEUED`, with the invalid-request 400 when `scheduledFor` is
omitted; otherwise the new time is applied, and when it is at or before now
a dispatch is started fire-and-forget while the 200 response carries the
record as it was before any dispatch outcome landed (still `QUEUED`). -/
theorem update_reschedule_rules (cfg : Config) (store : JobStore) (id : String)
    (reqSf : Option JsDate) (now : Int) (oc : FetchOutcome) (aid : String)
    (job : Job) (t : Int) (h : storeGet store id = some job) :
    (job.status ≠ .QUEUED →
      updateHandler cfg store id reqSf now oc aid
        = ⟨store, ⟨400, .err "Job can only be updated when status is QUEUED"⟩, []⟩)
    ∧ (job.status = .QUEUED → reqSf = none →
      updateHandler cfg store id reqSf now oc aid
        = ⟨store, ⟨400, .err "scheduledFor is required"⟩, []⟩)
    ∧ (job.status = .QUEUED → reqSf = some (some t) →
        (updateHandler cfg store id reqSf now oc aid).response
          = ⟨200, .jobBody { job with scheduledFor := t }⟩
        ∧ ({ job with scheduledFor := t } : Job).status = .QUEUED
        ∧ (t ≤ now →
            (updateHandler cfg store id reqSf now oc aid).store
              = (dispatchJob cfg (storeSet store id { job with scheduledFor := t })
                  { job with scheduledFor := t } oc aid).1
            ∧ (updateHandler cfg store id reqSf now oc aid).requests
              = (dispatchJob cfg (storeSet store id { job with scheduledFor := t })
                  { job with scheduledFor := t } oc aid).2)
        ∧ (¬ t ≤ now →
            (updateHandler cfg store id reqSf now oc aid).store
              = storeSet store id { job with scheduledFor := t }
            ∧ (updateHandler cfg store id reqSf now oc aid).requests = [])) := by
  refine ⟨?_, ?_, ?_⟩
  · intro hnq
    simp [updateHandler, h, hnq]
  · intro hq hnone
    subst hnone
    simp [updateHandler, h, hq]
  · intro hq hsf
    subst hsf
    by_cases hle : t ≤ now
    · refine ⟨?_, by simp [hq], fun _ => ⟨?_, ?_⟩, fun hn => absurd hle hn⟩ <;>
        simp [updateHandler, h, hq, hle]
    · refine ⟨?_, by simp [hq], fun hc => absurd hc hle, fun _ => ⟨?_, ?_⟩⟩ <;>
        simp [updateHandler, h, hq, hle]

/-- Witness for `update_reschedule_rules`: a queued job rescheduled to a
past time (1 at current time 600). -/
theorem update_reschedule_rules_witness :
    storeGet queuedStore "job1" = some sampleJob
    ∧ sampleJob.status = .QUEUED
    ∧ (updateHandler sampleCfg queuedStore "job1" (some (some 1)) 600 .thrown "aU").response
        = ⟨200, .jobBody { sampleJob with scheduledFor := 1 }⟩
    ∧ ({ sampleJob with scheduledFor := 1 } : Job).status = .QUEUED
    ∧ (updateHandler sampleCfg queuedStore "job1" (some (some 1)) 600 .thrown "aU").store
        = (dispatchJob sampleCfg (storeSet queuedStore "job1" { sampleJob with scheduledFor := 1 })
            { sampleJob with scheduledFor := 1 } .thrown "aU").1
    ∧ (updateHandler sampleCfg queuedStore "job1" (some (some 1)) 600 .thrown "aU").requests
        = (dispatchJob sampleCfg (storeSet queuedStore "job1" { sampleJob with scheduledFor := 1 })
            { sampleJob with scheduledFor := 1 } .thrown "aU").2 := by
  have H := update_reschedule_rules sampleCfg queuedStore "job1" (some (some 1)) 600
    .thrown "aU" sampleJob 1 (by decide)
  have H3 := H.2.2 (by decide) rfl
  exact ⟨by decide, by decide, H3.1, H3.2.1, (H3.2.2.1 (by decide)).1, (H3.2.2.1 (by decide)).2⟩

/-- Claim C7 counterexample: a Get on an unknown id answers 404 with the
generic body; the requested id is not echoed anywhere in the body. -/
theorem get_notfound_no_echo_counterexample :
    storeGet [] "job-42" = none
    ∧ getHandler [] "job-42" = ⟨404, .err "Job not found"⟩
    ∧ bodyMentions (getHandler [] "job-42").body "job-42" = false := by
  decide

/-- A list is a prefix of itself followed by anything (boolean form). -/
theorem isPrefixOf_append_self (n b : List Char) : n.isPrefixOf (n ++ b) = true := by
  induction n with
  | nil => simp
  | cons c t ih => simp [List.isPrefixOf, ih]

/-- A contiguous middle segment is found by `charsContain`. -/
theorem charsContain_append_middle (a n b : List Char) :
    charsContain (a ++ (n ++ b)) n = true := by
  induction a with
  | nil =>
    rw [List.nil_append]
    cases hnb : n ++ b with
    | nil =>
      obtain ⟨hn, -⟩ := List.append_eq_nil.mp hnb
      show List.isEmpty n = true
      rw [hn]
      rfl
    | cons x xs =>
      show (n.isPrefixOf (x :: xs) || charsContain xs n) = true
      rw [← hnb, isPrefixOf_append_self]
      rfl
  | cons c t ih =>
    rw [List.cons_append]
    show (n.isPrefixOf (c :: (t ++ (n ++ b))) || charsContain (t ++ (n ++ b)) n) = true
    rw [ih]
    simp

/-- Claim C7 amended: a Get on an unknown id fails with a 404 whose body is
the fixed generic message, without the id echoed; the id-echoing NotFound
detail exists on the update route instead. -/
theorem get_unknown_notfound_generic (store : JobStore) (id : String)
    (h : storeGet store id = none) :
    getHandler store id = ⟨404, .err "Job not found"⟩
    ∧ ∀ (cfg : Config) (now : Int) (oc : FetchOutcome) (aid : String),
        bodyMentions (updateHandler cfg store id none now oc aid).response.body id = true := by
  refine ⟨by simp [getHandler, h], ?_⟩
  intro cfg now oc aid
  simp only [updateHandler, h, bodyMentions]
  have hm : ("Job with id \x27" ++ id ++ "\x27 does not exist").data
      = ("Job with id \x27").data ++ (id.data ++ ("\x27 does not exist").data) := by
    simp [String.data_append]
  rw [hm, charsContain_append_middle]
  simp

/-- Witness for `get_unknown_notfound_generic` on the empty store. -/
theorem get_unknown_notfound_generic_witness :
    storeGet [] "ghost" = none
    ∧ (getHandler [] "ghost" = ⟨404, .err "Job not found"⟩
      ∧ bodyMentions (updateHandler sampleCfg [] "ghost" none 0 .thrown "aG").response.body
          "ghost" = true) := by
  have H := get_unknown_notfound_generic [] "ghost" (by decide)
  exact ⟨by decide, H.1, H.2 sampleCfg 0 .thrown "aG"⟩

/-- A first create request used for the id-collision scenario. -/
def creationReqA : CreateRequest := ⟨some (some 5000), some (.raw "p1")⟩

/-- A second, distinct create request used for the id-collision scenario. -/
def creationReqB : CreateRequest := ⟨some (some 5000), some (.raw "p2")⟩

/-- Claim C8 counterexample: ids come from `Math.random()`, which may repeat
its draws; two distinct creations (different payloads) whose draws render
identically receive the same id, and the second `Map.set` silently
overwrites the first record, leaving a single entry in the store. -/
theorem randomId_collision_counterexample :
    creationReqA ≠ creationReqB
    ∧ randomId (repeatStream 0) (repeatStream 1) = randomId (repeatStream 2) (repeatStream 3)
    ∧ (storeValues
        (createHandler sampleCfg
          (createHandler sampleCfg [] creationReqA 1000
            (randomId (repeatStream 0) (repeatStream 1)) .thrown "a1").store
          creationReqB 1001 (randomId (repeatStream 2) (repeatStream 3)) .thrown "a2").store).length
        = 1
    ∧ storeGet
        (createHandler sampleCfg
          (createHandler sampleCfg [] creationReqA 1000
            (randomId (repeatStream 0) (repeatStream 1)) .thrown "a1").store
          creationReqB 1001 (randomId (repeatStream 2) (repeatStream 3)) .thrown "a2").store
        (randomId (repeatStream 0) (repeatStream 1))
        = some (createdJob (randomId (repeatStream 2) (repeatStream 3)) 5000 creationReqB 1001) := by
  decide

/-- Claim C8 amended: a job id is a pure function of the two `Math.random()`
renderings drawn at creation, so two creations receive distinct ids exactly
when the concatenated substring windows of their draws differ; when the
draws repeat, the ids collide — process-lifetime uniqueness is only
probabilistic, not guaranteed. -/
theorem randomId_distinct_of_draws_distinct (a b c d : String)
    (h : jsSubstring a 2 15 ++ jsSubstring b 2 15
        ≠ jsSubstring c 2 15 ++ jsSubstring d 2 15) :
    randomId a b ≠ randomId c d := h

/-- Witness for `randomId_distinct_of_draws_distinct` on concrete draws. -/
theorem randomId_distinct_witness :
    jsSubstring "0.abc" 2 15 ++ jsSubstring "0.def" 2 15
        ≠ jsSubstring "0.xyz" 2 15 ++ jsSubstring "0.uvw" 2 15
    ∧ randomId "0.abc" "0.def" ≠ randomId "0.xyz" "0.uvw" :=
  ⟨by decide, randomId_distinct_of_draws_distinct "0.abc" "0.def" "0.xyz" "0.uvw" (by decide)⟩

/-- Claim C9 (confirmed): post-creation mutations preserve `id`, `payload`
and `createdAt`: the update write changes only `scheduledFor` (visible both
in the 200 body and, in the deferred case, in the stored record), the
cancel write changes only `status`, and each of the records `dispatchJob`
writes differs from its input job only in `status`. -/
theorem mutations_preserve_frame (cfg : Config) (store : JobStore) (id : String)
    (job : Job) (t now : Int) (oc : FetchOutcome) (aid : String)
    (h : storeGet store id = some job) (hq : job.status = .QUEUED) :
    (updateHandler cfg store id (some (some t)) now oc aid).response.body
        = .jobBody { job with scheduledFor := t }
    ∧ (now < t →
        storeGet (updateHandler cfg store id (some (some t)) now oc aid).store id
          = some { job with scheduledFor := t })
    ∧ storeGet (cancelHandler store id).1 id = some { job with status := .CANCELLED }
    ∧ ∀ w ∈ dispatchWrites job oc,
        w.id = job.id ∧ w.payload = job.payload ∧ w.createdAt = job.createdAt
          ∧ w.scheduledFor = job.scheduledFor := by
  refine ⟨?_, ?_, ?_, ?_⟩
  · by_cases hle : t ≤ now <;> simp [updateHandler, h, hq, hle]
  · intro hlt
    have hle : ¬ t ≤ now := not_le.mpr hlt
    simp [updateHandler, h, hq, hle, storeGet_storeSet_self]
  · simp [cancelHandler, h, hq, storeGet_storeSet_self]
  · intro w hw
    rcases List.mem_cons.mp hw with hw1 | hw2
    · subst hw1; exact ⟨rfl, rfl, rfl, rfl⟩
    · rcases List.mem_singleton.mp hw2 with hw3
      subst hw3; exact ⟨rfl, rfl, rfl, rfl⟩

/-- Witness for `mutations_preserve_frame` on a concrete queued job. -/
theorem mutations_preserve_frame_witness :
    storeGet queuedStore "job1" = some sampleJob
    ∧ sampleJob.status = .QUEUED
    ∧ ((updateHandler sampleCfg queuedStore "job1" (some (some 5000)) 600
          (.response true) "aF").response.body
        = .jobBody { sampleJob with scheduledFor := 5000 }
      ∧ storeGet (updateHandler sampleCfg queuedStore "job1" (some (some 5000)) 600
          (.response true) "aF").store "job1"
        = some { sampleJob with scheduledFor := 5000 }
      ∧ storeGet (cancelHandler queuedStore "job1").1 "job1"
        = some { sampleJob with status := .CANCELLED }
      ∧ (({ sampleJob with status := .DISPATCHED } : Job).id = sampleJob.id
        ∧ ({ sampleJob with status := .DISPATCHED } : Job).payload = sampleJob.payload
        ∧ ({ sampleJob with status := .DISPATCHED } : Job).createdAt = sampleJob.createdAt
        ∧ ({ sampleJob with status := .DISPATCHED } : Job).scheduledFor
            = sampleJob.scheduledFor)) := by
  have H := mutations_preserve_frame sampleCfg queuedStore "job1" sampleJob 5000 600
    (.response true) "aF" (by decide) (by decide)
  exact ⟨by decide, by decide, H.1, H.2.1 (by decide), H.2.2.1,
    H.2.2.2 { sampleJob with status := .DISPATCHED } (by simp [dispatchWrites])⟩
